import Mathlib

/-!
Verification development for the stripe-b2b-payments-api repository.

The Python sources are shallowly embedded as follows:

* `Decimal` values are embedded as `ℚ` (Python `Decimal` arithmetic on the
  operations used here — multiplication by 100, comparison, division by
  100 — is exact, so it coincides with rational arithmetic).
* Python `int(...)` applied to a `Decimal` truncates toward zero; this is
  `pyIntOfRat`.
* Python truthiness tests (`if customer_id:`, `if amount:`,
  `if trial_period_days:`, `if metadata:`) treat `None`, `""`, `0` and the
  empty dict as false; this is made explicit by the `truthy*` helpers.
* Python `dict` objects (the in-memory record stores) are embedded as
  association lists in insertion order; `dictInsert` overwrites an existing
  key in place and appends a new key at the end, exactly like a Python dict.
* `list.sort(key=..., reverse=True)` is a stable descending sort; it is
  embedded with `List.insertionSort` and the relation
  `fun a b => key b ≤ key a`, which is stable in the same sense, and a
  stable sort with respect to a total preorder is unique as a function.
* Python slicing `xs[i:j]` (step 1) is `pySlice`, including negative-index
  and clamping behaviour.
* `datetime` instants and provider epoch timestamps are embedded as `ℤ`
  (only their creation, comparison and ordering are used by the code).
* Calls to the Stripe SDK are embedded by (a) the request dictionary the
  repository code builds and hands to the SDK, computed exactly as in
  `stripe_service.py`, and (b) a `provider` function parameter standing for
  the provider's response on success (the claims under study quantify over
  successful provider calls).
-/

namespace StripeB2B

/-! ### Python semantics helpers -/

/-- Python `int(q)` on an exact `Decimal`/rational value: truncation toward
zero (floor for nonnegative values, ceiling for negative ones). -/
def pyIntOfRat (q : ℚ) : ℤ := if 0 ≤ q then ⌊q⌋ else ⌈q⌉

/-- Python truthiness for an optional string: `None` and `""` are falsy. -/
def truthyStr (o : Option String) : Option String :=
  match o with
  | some s => if s = "" then none else some s
  | none => none

/-- Python truthiness for an optional integer: `None` and `0` are falsy. -/
def truthyInt (o : Option ℤ) : Option ℤ :=
  match o with
  | some n => if n = 0 then none else some n
  | none => none

/-- Python truthiness for an optional `Decimal`: `None` and `0` are falsy. -/
def truthyRat (o : Option ℚ) : Option ℚ :=
  match o with
  | some q => if q = 0 then none else some q
  | none => none

/-- String-keyed metadata dictionaries (values kept opaque as strings). -/
abbrev Meta := List (String × String)

/-- Python truthiness for an optional dict: `None` and `{}` are falsy. -/
def truthyMeta (o : Option Meta) : Option Meta :=
  match o with
  | some [] => none
  | some m => some m
  | none => none

/-- A Python `dict` keyed by strings, kept in insertion order. -/
abbrev Dict (β : Type) := List (String × β)

/-- `d[k] = v`: overwrite in place if the key exists, else append. -/
def dictInsert {β : Type} (d : Dict β) (k : String) (v : β) : Dict β :=
  if d.any (fun p => p.1 == k) then
    d.map (fun p => if p.1 == k then (k, v) else p)
  else
    d ++ [(k, v)]

/-- `d.get(k)`: the value stored under `k`, if any. -/
def dictLookup {β : Type} (d : Dict β) (k : String) : Option β :=
  (d.find? (fun p => p.1 == k)).map (fun p => p.2)

/-- `list(d.values())` in insertion order. -/
def dictValues {β : Type} (d : Dict β) : List β := d.map (fun p => p.2)

/-- `len(d)`. -/
def dictLen {β : Type} (d : Dict β) : ℕ := d.length

/-- Python slice index resolution for `xs[i:j]`: negative indices count from
the end, and the result is clamped to `[0, len]`. -/
def pySliceIdx (n i : ℤ) : ℤ :=
  if i < 0 then max 0 (i + n) else min i n

/-- Python `xs[i:j]` with step 1. -/
def pySlice {α : Type} (xs : List α) (i j : ℤ) : List α :=
  let n : ℤ := xs.length
  ((xs.take (pySliceIdx n j).toNat).drop (pySliceIdx n i).toNat)

/-- `xs.sort(key=key, reverse=True)`: the stable descending sort on `key`. -/
def pySortDesc {α : Type} (key : α → ℤ) (xs : List α) : List α :=
  List.insertionSort (fun a b => key b ≤ key a) xs

/-! ### Constants (`app/constants.py`) -/

def DEFAULT_PAGE_SIZE : ℤ := 10

def MAX_PAGE_SIZE : ℤ := 100

def STRIPE_TEST_PAYMENT_METHOD : String := "pm_card_visa"

def STRIPE_RETURN_URL : String := "https://example.com/return"

/-- `PaymentStatus` enumeration. -/
inductive PaymentStatus where
  | pending
  | succeeded
  | failed
  | canceled
  | requires_payment_method
  | requires_confirmation
  | requires_action
  | processing
deriving DecidableEq, Repr

/-- `SubscriptionStatus` enumeration. -/
inductive SubscriptionStatus where
  | active
  | canceled
  | incomplete
  | incomplete_expired
  | past_due
  | trialing
  | unpaid
deriving DecidableEq, Repr

/-! ### Pydantic models (`app/models/*.py`) -/

/-- `PaymentCreateRequest` (validation `amount > 0` is enforced at the HTTP
layer and is modelled there). -/
structure PaymentCreateRequest where
  amount : ℚ
  currency : String
  description : Option String
  customer_id : Option String
  metadata : Option Meta
deriving DecidableEq, Repr

/-- `PaymentResponse`: the locally stored payment record. -/
structure PaymentResponse where
  id : String
  amount : ℚ
  currency : String
  status : PaymentStatus
  description : Option String
  created_at : ℤ
  updated_at : ℤ
  stripe_payment_intent_id : Option String
  customer_id : Option String
  metadata : Option Meta
deriving DecidableEq, Repr

/-- `PaymentListResponse`. -/
structure PaymentListResponse where
  payments : List PaymentResponse
  total : ℕ
  page : ℤ
  per_page : ℤ
deriving DecidableEq, Repr

/-- `RefundResponse`: the locally stored refund record. -/
structure RefundResponse where
  id : String
  payment_intent_id : String
  amount : ℚ
  currency : String
  status : String
  reason : Option String
  created_at : ℤ
deriving DecidableEq, Repr

/-- `RefundListResponse`. -/
structure RefundListResponse where
  refunds : List RefundResponse
  total : ℕ
  has_more : Bool
deriving DecidableEq, Repr

/-- `SubscriptionCreateRequest`. -/
structure SubscriptionCreateRequest where
  customer_id : String
  price_id : String
  quantity : ℤ
  trial_period_days : Option ℤ
  metadata : Option Meta
deriving DecidableEq, Repr

/-- `SubscriptionResponse`: the locally stored subscription record. -/
structure SubscriptionResponse where
  id : String
  customer_id : String
  status : SubscriptionStatus
  current_period_start : ℤ
  current_period_end : ℤ
  trial_start : Option ℤ
  trial_end : Option ℤ
  cancel_at_period_end : Bool
  canceled_at : Option ℤ
  stripe_subscription_id : Option String
  metadata : Option Meta
  created_at : ℤ
  updated_at : ℤ
deriving DecidableEq, Repr

/-- `SubscriptionListResponse`. -/
structure SubscriptionListResponse where
  subscriptions : List SubscriptionResponse
  total : ℕ
  page : ℤ
  per_page : ℤ
deriving DecidableEq, Repr

/-! ### Provider gateway (`app/services/stripe_service.py`)

Each `StripeService` method builds a request dictionary and passes it to the
Stripe SDK.  The request dictionaries are embedded as structures whose
optional fields are `none` exactly when the Python code does not put the
corresponding key into the dictionary.  The provider's successful response
is supplied by a `provider` function parameter at the call sites. -/

/-- The `intent_data` dictionary handed to `stripe.PaymentIntent.create`. -/
structure PaymentIntentRequest where
  amount : ℤ
  currency : String
  automatic_payment_methods_enabled : Bool
  customer : Option String
  metadata : Option Meta
  confirm : Option Bool
  payment_method : Option String
  return_url : Option String
deriving DecidableEq, Repr

/-- A successful `stripe.PaymentIntent` response (the fields the repository
reads). -/
structure StripePaymentIntent where
  id : String
  client_secret : String
  status : String
deriving DecidableEq, Repr

/-- The `refund_data` dictionary handed to `stripe.Refund.create`. -/
structure RefundRequest where
  payment_intent : String
  amount : Option ℤ
deriving DecidableEq, Repr

/-- A successful `stripe.Refund` response (the fields the repository
reads). -/
structure StripeRefund where
  id : String
  payment_intent : String
  amount : ℤ
  currency : String
  status : String
  created : ℤ
deriving DecidableEq, Repr

/-- The `subscription_data` dictionary handed to
`stripe.Subscription.create`. -/
structure SubscriptionRequest where
  customer : String
  price : String
  trial_period_days : Option ℤ
  metadata : Option Meta
deriving DecidableEq, Repr

/-- A successful `stripe.Subscription` response (the fields the repository
reads). -/
structure StripeSubscription where
  id : String
  status : String
  current_period_start : ℤ
  current_period_end : ℤ
  trial_start : Option ℤ
  trial_end : Option ℤ
  cancel_at_period_end : Bool
  canceled_at : Option ℤ
deriving DecidableEq, Repr

namespace StripeService

/-- `StripeService.create_payment_intent`: the request dictionary built and
sent for a normal payment intent. -/
def create_payment_intent (amount : ℤ) (currency : String)
    (customer_id : Option String) (metadata : Option Meta) :
    PaymentIntentRequest :=
  { amount := amount
    currency := currency
    automatic_payment_methods_enabled := true
    customer := truthyStr customer_id
    metadata := truthyMeta metadata
    confirm := none
    payment_method := none
    return_url := none }

/-- `StripeService.create_test_payment_intent`: the request dictionary built
and sent for a test payment intent (confirmed immediately with the test
payment method). -/
def create_test_payment_intent (amount : ℤ) (currency : String)
    (customer_id : Option String) (metadata : Option Meta) :
    PaymentIntentRequest :=
  { amount := amount
    currency := currency
    automatic_payment_methods_enabled := true
    customer := truthyStr customer_id
    metadata := truthyMeta metadata
    confirm := some true
    payment_method := some STRIPE_TEST_PAYMENT_METHOD
    return_url := some STRIPE_RETURN_URL }

/-- `StripeService.create_refund`: the request dictionary built and sent to
`stripe.Refund.create`; the `amount` key is added only when the `amount`
argument is truthy. -/
def create_refund (payment_intent_id : String) (amount : Option ℤ) :
    RefundRequest :=
  { payment_intent := payment_intent_id
    amount := truthyInt amount }

/-- `StripeService.create_subscription`: the request dictionary built and
sent to `stripe.Subscription.create`. -/
def create_subscription (customer_id : String) (price_id : String)
    (trial_period_days : Option ℤ) (metadata : Option Meta) :
    SubscriptionRequest :=
  { customer := customer_id
    price := price_id
    trial_period_days := truthyInt trial_period_days
    metadata := truthyMeta metadata }

end StripeService

/-! ### Payment service (`app/services/payment_service.py`) -/

/-- The in-memory payment store `PaymentService._payments`. -/
abbrev PaymentStore := Dict PaymentResponse

namespace PaymentService

/-- `PaymentService.create_payment`.  The nondeterministic environment is
passed explicitly: `provider` is the provider's response to the request the
service sends (the success case), `payment_id` is the value of
`str(uuid.uuid4())` and `now` the value of `datetime.utcnow()`.  Returns the
request sent to the provider, the returned payment record, and the updated
store. -/
def create_payment (provider : PaymentIntentRequest → StripePaymentIntent)
    (store : PaymentStore) (request : PaymentCreateRequest)
    (test_mode : Bool) (payment_id : String) (now : ℤ) :
    PaymentIntentRequest × PaymentResponse × PaymentStore :=
  let amount_cents : ℤ := pyIntOfRat (request.amount * 100)
  let sent : PaymentIntentRequest :=
    if test_mode then
      StripeService.create_test_payment_intent amount_cents request.currency
        request.customer_id request.metadata
    else
      StripeService.create_payment_intent amount_cents request.currency
        request.customer_id request.metadata
  let stripe_intent : StripePaymentIntent := provider sent
  let payment : PaymentResponse :=
    { id := payment_id
      amount := request.amount
      currency := request.currency
      status := PaymentStatus.pending
      description := request.description
      created_at := now
      updated_at := now
      stripe_payment_intent_id := some stripe_intent.id
      customer_id := request.customer_id
      metadata := request.metadata }
  (sent, payment, dictInsert store payment_id payment)

/-- `PaymentService.get_payment`. -/
def get_payment (store : PaymentStore) (payment_id : String) :
    Option PaymentResponse :=
  dictLookup store payment_id

/-- `PaymentService.get_payments`: filter by customer when the filter is
truthy, stable-sort by creation date descending, then slice
`[start:start+per_page]`. -/
def get_payments (store : PaymentStore) (customer_id : Option String)
    (page per_page : ℤ) : List PaymentResponse :=
  let payments := dictValues store
  let payments :=
    match truthyStr customer_id with
    | some c => payments.filter (fun p => p.customer_id == some c)
    | none => payments
  let sorted := pySortDesc (fun p => p.created_at) payments
  pySlice sorted ((page - 1) * per_page) ((page - 1) * per_page + per_page)

end PaymentService

/-! ### Refund service (`app/services/refund_service.py`) -/

/-- The in-memory refund store `RefundService._refunds`. -/
abbrev RefundStore := Dict RefundResponse

namespace RefundService

/-- `RefundService.create_refund`: converts a truthy amount to cents, calls
the gateway, and stores a record built from the provider response.  Returns
the request sent to the provider, the returned refund record, and the
updated store. -/
def create_refund (provider : RefundRequest → StripeRefund)
    (store : RefundStore) (payment_intent_id : String)
    (amount : Option ℚ) (reason : Option String) :
    RefundRequest × RefundResponse × RefundStore :=
  let amount_cents : Option ℤ :=
    match truthyRat amount with
    | some a => some (pyIntOfRat (a * 100))
    | none => none
  let sent : RefundRequest :=
    StripeService.create_refund payment_intent_id amount_cents
  let stripe_refund : StripeRefund := provider sent
  let refund : RefundResponse :=
    { id := stripe_refund.id
      payment_intent_id := stripe_refund.payment_intent
      amount := (stripe_refund.amount : ℚ) / 100
      currency := stripe_refund.currency
      status := stripe_refund.status
      reason := reason
      created_at := stripe_refund.created }
  (sent, refund, dictInsert store refund.id refund)

/-- `RefundService.list_refunds`: filter by truthy payment intent id,
stable-sort by creation date descending, truncate with `refunds[:limit]`. -/
def list_refunds (store : RefundStore) (payment_intent_id : Option String)
    (limit : ℤ) : List RefundResponse :=
  let refunds := dictValues store
  let refunds :=
    match truthyStr payment_intent_id with
    | some pid => refunds.filter (fun r => r.payment_intent_id == pid)
    | none => refunds
  let sorted := pySortDesc (fun r => r.created_at) refunds
  pySlice sorted 0 limit

end RefundService

/-! ### Subscription service (`app/services/subscription_service.py`) -/

/-- The in-memory subscription store `SubscriptionService._subscriptions`. -/
abbrev SubscriptionStore := Dict SubscriptionResponse

namespace SubscriptionService

/-- `SubscriptionService.create_subscription`.  `provider` stands for the
provider's successful response, `subscription_id` for `str(uuid.uuid4())`
and `now` for `datetime.utcnow()`.  The local status is
`ACTIVE if not request.trial_period_days else TRIALING`; provider epoch
timestamps are converted with Python truthiness guards
(`... if stripe_subscription.trial_start else None`). -/
def create_subscription (provider : SubscriptionRequest → StripeSubscription)
    (store : SubscriptionStore) (request : SubscriptionCreateRequest)
    (subscription_id : String) (now : ℤ) :
    SubscriptionRequest × SubscriptionResponse × SubscriptionStore :=
  let sent : SubscriptionRequest :=
    StripeService.create_subscription request.customer_id request.price_id
      request.trial_period_days request.metadata
  let stripe_subscription : StripeSubscription := provider sent
  let subscription : SubscriptionResponse :=
    { id := subscription_id
      customer_id := request.customer_id
      status :=
        if truthyInt request.trial_period_days = none then
          SubscriptionStatus.active
        else
          SubscriptionStatus.trialing
      current_period_start := stripe_subscription.current_period_start
      current_period_end := stripe_subscription.current_period_end
      trial_start := truthyInt stripe_subscription.trial_start
      trial_end := truthyInt stripe_subscription.trial_end
      cancel_at_period_end := stripe_subscription.cancel_at_period_end
      canceled_at := truthyInt stripe_subscription.canceled_at
      stripe_subscription_id := some stripe_subscription.id
      metadata := request.metadata
      created_at := now
      updated_at := now }
  (sent, subscription, dictInsert store subscription_id subscription)

/-- `SubscriptionService.get_subscription`. -/
def get_subscription (store : SubscriptionStore) (subscription_id : String) :
    Option SubscriptionResponse :=
  dictLookup store subscription_id

/-- `SubscriptionService.get_subscriptions`: same pagination pattern as
payments. -/
def get_subscriptions (store : SubscriptionStore)
    (customer_id : Option String) (page per_page : ℤ) :
    List SubscriptionResponse :=
  let subscriptions := dictValues store
  let subscriptions :=
    match truthyStr customer_id with
    | some c => subscriptions.filter (fun s => s.customer_id == c)
    | none => subscriptions
  let sorted := pySortDesc (fun s => s.created_at) subscriptions
  pySlice sorted ((page - 1) * per_page) ((page - 1) * per_page + per_page)

end SubscriptionService

/-- `SubscriptionService.cancel_subscription`: look up the local record; if
absent return `None`; otherwise call the gateway
(`stripe.Subscription.modify(id, cancel_at_period_end=True)`, embedded as
the `provider` parameter applied to the stored provider reference), set the
local status to `CANCELED`, copy back `cancel_at_period_end` and
`canceled_at`, store and return the updated record. -/
def SubscriptionService.cancel_subscription
    (provider : Option String → StripeSubscription)
    (store : SubscriptionStore) (subscription_id : String) (now : ℤ) :
    Option (SubscriptionResponse × SubscriptionStore) :=
  match dictLookup store subscription_id with
  | none => none
  | some subscription =>
    let stripe_subscription := provider subscription.stripe_subscription_id
    let updated : SubscriptionResponse :=
      { subscription with
        status := SubscriptionStatus.canceled
        cancel_at_period_end := stripe_subscription.cancel_at_period_end
        canceled_at := truthyInt stripe_subscription.canceled_at
        updated_at := now }
    some (updated, dictInsert store subscription_id updated)

/-! ### HTTP layer (`app/api/*.py`, `app/main.py`)

A handled request produces either a success response with a status code and
a typed body, or an error response with a status code and a detail string
(covering both `HTTPException` and responses produced by the framework). -/

/-- An HTTP response: success with a typed body, or an error. -/
inductive HttpResponse (α : Type) where
  | success (code : ℕ) (body : α)
  | error (code : ℕ) (detail : String)
deriving DecidableEq, Repr

/-- The status code of a response. -/
def HttpResponse.statusCode {α : Type} : HttpResponse α → ℕ
  | .success code _ => code
  | .error code _ => code

/-- Modelled from the FastAPI framework (third-party, not repository code):
when a request body or query parameter fails the validation constraints
declared on the route (`pydantic` `Field`/`Query` bounds or a wrong shape),
FastAPI raises `RequestValidationError`, whose default handler responds
with status 422, and `app/main.py` registers no handler overriding this
default (it only registers handlers for 404 and 500). -/
def REQUEST_VALIDATION_FAILURE_STATUS : ℕ := 422

namespace PaymentsApi

/-- Body of a successful `POST /payments/create` response
(`app/api/payments.py`, lines 51-55). -/
structure CreatePaymentBody where
  message : String
  payment : PaymentResponse
  client_secret : Option String
deriving DecidableEq, Repr

/-- `POST /payments/create`: validate the request body
(`amount` declared with `gt=0`), then run the handler; a successful service
call yields 201 with `{message, payment, client_secret}` where
`client_secret` is set to `payment.stripe_payment_intent_id`. -/
def create_payment (provider : PaymentIntentRequest → StripePaymentIntent)
    (store : PaymentStore) (request : PaymentCreateRequest)
    (test_mode : Bool) (payment_id : String) (now : ℤ) :
    HttpResponse CreatePaymentBody × PaymentStore :=
  if ¬ 0 < request.amount then
    (.error REQUEST_VALIDATION_FAILURE_STATUS "Input should be greater than 0",
      store)
  else
    let result := PaymentService.create_payment provider store request
      test_mode payment_id now
    let payment := result.2.1
    (.success 201
      { message := "Payment created successfully"
        payment := payment
        client_secret := payment.stripe_payment_intent_id },
      result.2.2)

/-- The response body built by `GET /payments/` on the success path
(`app/api/payments.py`, lines 251-266): the page of records from the
service, and `total = len(payment_service._payments)` — the size of the
whole store, not of the filtered listing. -/
def list_payments_body (store : PaymentStore) (customer_id : Option String)
    (page per_page : ℤ) : PaymentListResponse :=
  { payments := PaymentService.get_payments store customer_id page per_page
    total := dictLen store
    page := page
    per_page := per_page }

/-- `GET /payments/`: validate the query parameters
(`page` declared `ge=1`, `per_page` declared `ge=1, le=MAX_PAGE_SIZE`),
then answer 200 with the list body. -/
def list_payments (store : PaymentStore) (customer_id : Option String)
    (page per_page : ℤ) : HttpResponse PaymentListResponse :=
  if page < 1 ∨ per_page < 1 ∨ MAX_PAGE_SIZE < per_page then
    .error REQUEST_VALIDATION_FAILURE_STATUS "query parameter out of range"
  else
    .success 200 (list_payments_body store customer_id page per_page)

end PaymentsApi

namespace RefundsApi

/-- The response body built by `GET /refunds/` on the success path
(`app/api/refunds.py`, lines 114-124): `total` is the length of the
truncated list and `has_more` is the literal `False`. -/
def list_refunds_body (store : RefundStore) (payment_intent_id : Option String)
    (limit : ℤ) : RefundListResponse :=
  let refunds := RefundService.list_refunds store payment_intent_id limit
  { refunds := refunds
    total := refunds.length
    has_more := false }

end RefundsApi

namespace SubscriptionsApi

/-- The module-level names bound in `app/api/subscriptions.py`: the names it
imports and the functions it defines.  The bodies of `get_subscription` and
`cancel_subscription` refer to a name `subscription_service` that does not
occur in this list (and is not a builtin), so evaluating those bodies
raises `NameError`. -/
def moduleNames : List String :=
  ["Optional", "APIRouter", "Depends", "HTTPException", "Query", "status",
   "SubscriptionCreateRequest", "SubscriptionListResponse",
   "get_subscription_service", "SubscriptionService", "ErrorMessages",
   "SuccessMessages", "DEFAULT_PAGE_SIZE", "MAX_PAGE_SIZE", "router",
   "create_subscription", "get_subscription", "cancel_subscription",
   "list_subscriptions"]

/-- `GET /subscriptions/{id}` (`app/api/subscriptions.py`, lines 63-79).
The handler body evaluates the unbound name `subscription_service`; the
resulting `NameError` is not caught in the handler, and FastAPI answers an
unhandled exception with status 500.  The branch the source text suggests
(look up the record, 404 when absent) is reachable only if the name were
bound. -/
def get_subscription (store : SubscriptionStore) (subscription_id : String) :
    HttpResponse SubscriptionResponse :=
  if moduleNames.contains "subscription_service" then
    match SubscriptionService.get_subscription store subscription_id with
    | some subscription => .success 200 subscription
    | none => .error 404 "Subscription not found"
  else
    .error 500 "Internal Server Error"

/-- Body of a successful `POST /subscriptions/{id}/cancel` response. -/
structure CancelSubscriptionBody where
  message : String
  subscription : SubscriptionResponse
deriving DecidableEq, Repr

/-- `POST /subscriptions/{id}/cancel` (`app/api/subscriptions.py`, lines
82-107).  The handler body evaluates the unbound name
`subscription_service` inside its `try` block; the resulting `NameError` is
caught by `except Exception` and re-raised as an `HTTPException` with
status 500. -/
def cancel_subscription (provider : Option String → StripeSubscription)
    (store : SubscriptionStore) (subscription_id : String) (now : ℤ) :
    HttpResponse CancelSubscriptionBody × SubscriptionStore :=
  if moduleNames.contains "subscription_service" then
    match SubscriptionService.cancel_subscription provider store
        subscription_id now with
    | some (subscription, store2) =>
      (.success 200
        { message := "Subscription cancelled successfully"
          subscription := subscription }, store2)
    | none => (.error 404 "Subscription not found", store)
  else
    (.error 500
      "Failed to cancel subscription: name subscription_service is not defined",
      store)

/-- The response body built by `GET /subscriptions/` on the success path
(`app/api/subscriptions.py`, lines 144-159): `total` is the size of the
whole store. -/
def list_subscriptions_body (store : SubscriptionStore)
    (customer_id : Option String) (page per_page : ℤ) :
    SubscriptionListResponse :=
  { subscriptions :=
      SubscriptionService.get_subscriptions store customer_id page per_page
    total := dictLen store
    page := page
    per_page := per_page }

end SubscriptionsApi

/-! ### The listing operation as the spec words it

`listPaymentsSpec` is written from the spec sentence "filters by customer id
if given, sorts by creation time descending, applies
offset = (page-1)×perPage, length = perPage", to be compared with the
source-translated `PaymentService.get_payments`. -/

/-- The payment listing as described by the spec: keep the records matching
the customer filter (all records when no filter is given), sort by creation
time descending, skip the first `(page-1)*per_page`, return at most
`per_page`. -/
def listPaymentsSpec (records : List PaymentResponse)
    (customer_id : Option String) (page per_page : ℕ) :
    List PaymentResponse :=
  let matching :=
    match customer_id with
    | some c => records.filter (fun p => p.customer_id == some c)
    | none => records
  let sorted := pySortDesc (fun p => p.created_at) matching
  (sorted.drop ((page - 1) * per_page)).take per_page

/-! ### Concrete fixtures used by counterexamples and witnesses -/

/-- A provider response used in concrete scenarios; note that its
`client_secret` differs from its `id`. -/
def exampleIntentProvider : PaymentIntentRequest → StripePaymentIntent :=
  fun _ =>
    { id := "pi_1"
      client_secret := "pi_1_secret_abc"
      status := "requires_payment_method" }

/-- A provider refund response used in concrete scenarios. -/
def exampleRefundProvider : RefundRequest → StripeRefund :=
  fun req =>
    { id := "re_1"
      payment_intent := req.payment_intent
      amount := 500
      currency := "usd"
      status := "succeeded"
      created := 100 }

/-- A provider subscription response used in concrete scenarios; note that
its reported `status` is the provider string `"incomplete"`. -/
def exampleSubscriptionProvider : SubscriptionRequest → StripeSubscription :=
  fun _ =>
    { id := "sub_1"
      status := "incomplete"
      current_period_start := 100
      current_period_end := 200
      trial_start := none
      trial_end := none
      cancel_at_period_end := false
      canceled_at := none }

/-- A well-formed creation request with the whole-unit amount 20. -/
def examplePaymentRequest : PaymentCreateRequest :=
  { amount := 20
    currency := "usd"
    description := none
    customer_id := none
    metadata := none }

/-- A creation request whose amount 0.019 has three decimal places. -/
def exampleSmallAmountRequest : PaymentCreateRequest :=
  { amount := 19/1000
    currency := "usd"
    description := none
    customer_id := none
    metadata := none }

/-- A creation request with the two-decimal amount 19.99. -/
def examplePriceRequest : PaymentCreateRequest :=
  { amount := 1999/100
    currency := "usd"
    description := none
    customer_id := none
    metadata := none }

/-- A creation request with a non-positive amount. -/
def exampleNegAmountRequest : PaymentCreateRequest :=
  { amount := -5
    currency := "usd"
    description := none
    customer_id := none
    metadata := none }

/-- A payment record with the given id, customer and creation instant. -/
def mkPayment (id : String) (customer : Option String) (t : ℤ) :
    PaymentResponse :=
  { id := id
    amount := 10
    currency := "usd"
    status := PaymentStatus.pending
    description := none
    created_at := t
    updated_at := t
    stripe_payment_intent_id := some "pi_1"
    customer_id := customer
    metadata := none }

/-- A store holding one payment whose customer id is `"cus_1"`. -/
def onePaymentStore : PaymentStore := [("p1", mkPayment "p1" (some "cus_1") 1)]

/-- A store holding five payments, inserted out of creation order. -/
def fivePaymentStore : PaymentStore :=
  [("p1", mkPayment "p1" none 10), ("p2", mkPayment "p2" none 40),
   ("p3", mkPayment "p3" none 20), ("p4", mkPayment "p4" none 50),
   ("p5", mkPayment "p5" none 30)]

/-- A store holding two payments of which exactly one matches the customer
filter `"cus_match"`. -/
def twoPaymentStore : PaymentStore :=
  [("pA", mkPayment "pA" (some "cus_match") 10),
   ("pB", mkPayment "pB" (some "cus_other") 20)]

/-- A refund record with the given id and creation instant. -/
def mkRefund (id : String) (t : ℤ) : RefundResponse :=
  { id := id
    payment_intent_id := "pi_1"
    amount := 10
    currency := "usd"
    status := "succeeded"
    reason := none
    created_at := t }

/-- A store holding two refunds for the same payment intent. -/
def twoRefundStore : RefundStore :=
  [("re_1", mkRefund "re_1" 100), ("re_2", mkRefund "re_2" 200)]

/-- A subscription creation request with `trial_period_days` set to 0. -/
def exampleTrialZeroRequest : SubscriptionCreateRequest :=
  { customer_id := "cus_1"
    price_id := "price_1"
    quantity := 1
    trial_period_days := some 0
    metadata := none }

/-! ### Lemmas about the embedded Python primitives -/

theorem intToNat_mul (a b : ℤ) (ha : 0 ≤ a) (hb : 0 ≤ b) :
    (a * b).toNat = a.toNat * b.toNat := by
  lift a to ℕ using ha
  lift b to ℕ using hb
  rw [← Nat.cast_mul, Int.toNat_natCast, Int.toNat_natCast, Int.toNat_natCast]

theorem find_map_overwrite {β : Type} (d : Dict β) (k : String) (v : β)
    (hany : d.any (fun p => p.1 == k) = true) :
    (d.map (fun p => if p.1 == k then (k, v) else p)).find?
        (fun p => p.1 == k) = some (k, v) := by
  induction d with
  | nil => simp at hany
  | cons p rest ih =>
    rw [List.map_cons]
    by_cases h : p.1 = k
    · have hbeq : (p.1 == k) = true := by simp [h]
      rw [if_pos hbeq, List.find?_cons_of_pos _ (by simp)]
    · have hbeq : (p.1 == k) = false := by simp [h]
      have hrest : rest.any (fun p => p.1 == k) = true := by
        simpa [List.any_cons, hbeq] using hany
      rw [if_neg (by simp [hbeq]), List.find?_cons_of_neg _ (by simp [hbeq])]
      exact ih hrest

theorem find_append_single {β : Type} (d : Dict β) (k : String) (v : β)
    (h : d.any (fun p => p.1 == k) = false) :
    (d ++ [(k, v)]).find? (fun p => p.1 == k) = some (k, v) := by
  rw [List.find?_append, List.find?_eq_none.mpr (List.any_eq_false.mp h)]
  simp

theorem dictLookup_dictInsert_self {β : Type} (d : Dict β) (k : String)
    (v : β) : dictLookup (dictInsert d k v) k = some v := by
  unfold dictLookup dictInsert
  cases hany : d.any (fun p => p.1 == k) with
  | true => rw [if_pos rfl, find_map_overwrite d k v hany]; rfl
  | false => rw [if_neg (by simp), find_append_single d k v hany]; rfl

theorem dictLookup_eq_none_iff {β : Type} (d : Dict β) (k : String) :
    dictLookup d k = none ↔ ∀ p ∈ d, p.1 ≠ k := by
  unfold dictLookup
  rw [Option.map_eq_none', List.find?_eq_none]
  simp

theorem pySlice_nonneg {α : Type} (xs : List α) (start len : ℤ)
    (hs : 0 ≤ start) (hl : 0 ≤ len) :
    pySlice xs start (start + len) = (xs.drop start.toNat).take len.toNat := by
  simp only [pySlice, pySliceIdx]
  rw [if_neg (by omega), if_neg (by omega), List.drop_take]
  have hdrop : xs.drop (min start (xs.length : ℤ)).toNat =
      xs.drop start.toNat := by
    rcases le_or_lt start (xs.length : ℤ) with h | h
    · congr 1
      omega
    · rw [List.drop_eq_nil_iff.mpr (by omega),
        List.drop_eq_nil_iff.mpr (by omega)]
  rw [hdrop]
  rw [List.take_eq_take.mpr ?hmin]
  case hmin =>
    rw [List.length_drop]
    omega

theorem paginate_eq {α : Type} (l : List α) (page per_page : ℤ)
    (h1 : 1 ≤ page) (h2 : 1 ≤ per_page) :
    pySlice l ((page - 1) * per_page) ((page - 1) * per_page + per_page) =
      (l.drop ((page.toNat - 1) * per_page.toNat)).take per_page.toNat := by
  rw [pySlice_nonneg l _ _ (mul_nonneg (by omega) (by omega)) (by omega)]
  have hcount : ((page - 1) * per_page).toNat =
      (page.toNat - 1) * per_page.toNat := by
    rw [intToNat_mul _ _ (by omega) (by omega)]
    congr 1
    omega
  rw [hcount]

/-! ### Claim C2 -/

/-- Claim C2 (code bug): the spec promises `GET /subscriptions/{id}` answers
200 for a stored id and 404 for an unknown one, and that
`POST /subscriptions/{id}/cancel` answers 404 for an unknown id.  The route
bodies evaluate the unbound module name `subscription_service`, so both
routes answer 500 for every id over every store content, contradicting the
route declarations and docstrings of `app/api/subscriptions.py` itself. -/
theorem C2_theorem :
    (∀ (store : SubscriptionStore) (subscription_id : String),
      (SubscriptionsApi.get_subscription store subscription_id).statusCode
        = 500) ∧
    (∀ (provider : Option String → StripeSubscription)
        (store : SubscriptionStore) (subscription_id : String) (now : ℤ),
      ((SubscriptionsApi.cancel_subscription provider store subscription_id
          now).1).statusCode = 500) := by
  have hname : "subscription_service" ∉ SubscriptionsApi.moduleNames := by
    decide
  constructor
  · intro store subscription_id
    simp [SubscriptionsApi.get_subscription, hname, HttpResponse.statusCode]
  · intro provider store subscription_id now
    simp [SubscriptionsApi.cancel_subscription, hname,
      HttpResponse.statusCode]

/-! ### Claim C3 -/

/-- Claim C3: when the refund amount parameter is omitted, the request sent
to the provider carries no amount field (only the payment intent
reference), so the provider refunds the full remaining amount. -/
theorem C3_theorem (provider : RefundRequest → StripeRefund)
    (store : RefundStore) (payment_intent_id : String)
    (reason : Option String) :
    (RefundService.create_refund provider store payment_intent_id none
        reason).1 =
      { payment_intent := payment_intent_id, amount := none } := by
  simp [RefundService.create_refund, StripeService.create_refund, truthyRat,
    truthyInt]

/-! ### Claim C6 -/

/-- Claim C6 counterexample: a creation request with `trial_period_days`
set to 0 — a trial period was requested in the sense of the claim
(`trial_period_days` is set) — yields a stored status of `active`, not
`trialing`. -/
theorem C6_counterexample :
    exampleTrialZeroRequest.trial_period_days ≠ none ∧
    ((SubscriptionService.create_subscription exampleSubscriptionProvider []
        exampleTrialZeroRequest "s1" 50).2.1).status =
      SubscriptionStatus.active ∧
    SubscriptionStatus.active ≠ SubscriptionStatus.trialing := by
  refine ⟨by decide, rfl, by decide⟩

/-- Claim C6 as amended: the locally stored subscription status is
`trialing` exactly when `trial_period_days` was set to a nonzero value and
`active` exactly when it was absent or 0, regardless of the status string
the provider reports in its response. -/
theorem C6_theorem (provider : SubscriptionRequest → StripeSubscription)
    (store : SubscriptionStore) (request : SubscriptionCreateRequest)
    (subscription_id : String) (now : ℤ) :
    (dictLookup
        (SubscriptionService.create_subscription provider store request
          subscription_id now).2.2 subscription_id =
      some (SubscriptionService.create_subscription provider store request
          subscription_id now).2.1) ∧
    (((SubscriptionService.create_subscription provider store request
          subscription_id now).2.1).status = SubscriptionStatus.trialing ↔
      ∃ d, request.trial_period_days = some d ∧ d ≠ 0) ∧
    (((SubscriptionService.create_subscription provider store request
          subscription_id now).2.1).status = SubscriptionStatus.active ↔
      (request.trial_period_days = none ∨
        request.trial_period_days = some 0)) := by
  refine ⟨dictLookup_dictInsert_self store subscription_id _, ?_, ?_⟩
  · rcases hd : request.trial_period_days with _ | d
    · simp [SubscriptionService.create_subscription, truthyInt, hd]
    · by_cases h0 : d = 0 <;>
        simp [SubscriptionService.create_subscription, truthyInt, hd, h0]
  · rcases hd : request.trial_period_days with _ | d
    · simp [SubscriptionService.create_subscription, truthyInt, hd]
    · by_cases h0 : d = 0 <;>
        simp [SubscriptionService.create_subscription, truthyInt, hd, h0]

/-! ### Claim C8 -/

/-- Claim C8: the `has_more` field of the refund listing response is the
literal `false` for every store content, filter and limit — including when
the returned list was truncated to `limit` while more matching refunds
exist, as the two-refund store with limit 1 shows. -/
theorem C8_theorem :
    (∀ (store : RefundStore) (payment_intent_id : Option String)
        (limit : ℤ),
      (RefundsApi.list_refunds_body store payment_intent_id limit).has_more
        = false) ∧
    ((RefundsApi.list_refunds_body twoRefundStore none 1).refunds.length
        = 1 ∧
      (dictValues twoRefundStore).length = 2 ∧
      (RefundsApi.list_refunds_body twoRefundStore none 1).has_more
        = false) := by
  refine ⟨fun store payment_intent_id limit => rfl, ?_, rfl, rfl⟩
  rfl

/-! ### Claim C9 -/

/-- Claim C9: the `total` field of the payment and subscription list bodies
is the size of the whole store, not the count of records matching the
customer filter; over the two-payment store with filter `"cus_match"` the
total is 2 while only 1 stored record matches the filter. -/
theorem C9_theorem :
    (∀ (store : PaymentStore) (customer_id : Option String)
        (page per_page : ℤ),
      (PaymentsApi.list_payments_body store customer_id page per_page).total
        = dictLen store) ∧
    (∀ (store : SubscriptionStore) (customer_id : Option String)
        (page per_page : ℤ),
      (SubscriptionsApi.list_subscriptions_body store customer_id page
          per_page).total = dictLen store) ∧
    ((PaymentsApi.list_payments_body twoPaymentStore (some "cus_match") 1
        10).total = 2 ∧
      ((dictValues twoPaymentStore).filter
          (fun p => p.customer_id == some "cus_match")).length = 1 ∧
      (1 : ℕ) < 2) := by
  refine ⟨fun _ _ _ _ => rfl, fun _ _ _ _ => rfl, rfl, ?_, by norm_num⟩
  rfl

/-! ### Claim C5 -/

/-- Claim C5: on a successful creation where the generated uuid is fresh
(the hypothesis `hfresh` states the practical uuid4 guarantee, which the
code relies on without checking), the returned record has status `pending`
and carries the generated id, that id differs from every id already in the
store, the record is stored under it, and an immediate `get_payment`
returns a record with identical fields. -/
theorem C5_theorem (provider : PaymentIntentRequest → StripePaymentIntent)
    (store : PaymentStore) (request : PaymentCreateRequest)
    (test_mode : Bool) (payment_id : String) (now : ℤ)
    (hfresh : dictLookup store payment_id = none) :
    ((PaymentService.create_payment provider store request test_mode
        payment_id now).2.1).status = PaymentStatus.pending ∧
    ((PaymentService.create_payment provider store request test_mode
        payment_id now).2.1).id = payment_id ∧
    (∀ p ∈ store, p.1 ≠ payment_id) ∧
    PaymentService.get_payment
        ((PaymentService.create_payment provider store request test_mode
          payment_id now).2.2) payment_id =
      some ((PaymentService.create_payment provider store request test_mode
          payment_id now).2.1) := by
  refine ⟨rfl, rfl, (dictLookup_eq_none_iff store payment_id).mp hfresh, ?_⟩
  exact dictLookup_dictInsert_self store payment_id _

/-- Claim C5 witness: the theorem instantiated on the empty store with the
amount-20 request and the generated id `"p1"`. -/
theorem C5_witness :
    dictLookup ([] : PaymentStore) "p1" = none ∧
    (((PaymentService.create_payment exampleIntentProvider []
        examplePaymentRequest false "p1" 0).2.1).status =
        PaymentStatus.pending ∧
      ((PaymentService.create_payment exampleIntentProvider []
          examplePaymentRequest false "p1" 0).2.1).id = "p1" ∧
      (∀ p ∈ ([] : PaymentStore), p.1 ≠ "p1") ∧
      PaymentService.get_payment
          ((PaymentService.create_payment exampleIntentProvider []
            examplePaymentRequest false "p1" 0).2.2) "p1" =
        some ((PaymentService.create_payment exampleIntentProvider []
            examplePaymentRequest false "p1" 0).2.1)) :=
  ⟨rfl, C5_theorem exampleIntentProvider [] examplePaymentRequest false "p1"
    0 rfl⟩

/-! ### Claim C10 -/

/-- Claim C10: a successful `POST /payments/create` answers 201 with a body
whose `client_secret` is the record's `stripe_payment_intent_id`, and that
field is the id of the provider's payment intent — not the provider's
separate `client_secret` value. -/
theorem C10_theorem (provider : PaymentIntentRequest → StripePaymentIntent)
    (store : PaymentStore) (request : PaymentCreateRequest)
    (test_mode : Bool) (payment_id : String) (now : ℤ)
    (h : 0 < request.amount) :
    PaymentsApi.create_payment provider store request test_mode payment_id
        now =
      (HttpResponse.success 201
        { message := "Payment created successfully"
          payment := (PaymentService.create_payment provider store request
            test_mode payment_id now).2.1
          client_secret := ((PaymentService.create_payment provider store
            request test_mode payment_id now).2.1).stripe_payment_intent_id },
        (PaymentService.create_payment provider store request test_mode
          payment_id now).2.2) ∧
    ((PaymentService.create_payment provider store request test_mode
        payment_id now).2.1).stripe_payment_intent_id =
      some ((provider ((PaymentService.create_payment provider store request
        test_mode payment_id now).1)).id) := by
  constructor
  · simp only [PaymentsApi.create_payment]
    rw [if_neg (not_not_intro h)]
  · rfl

/-- Claim C10 witness: on the concrete request with amount 20 and the
provider response whose `client_secret` (`"pi_1_secret_abc"`) differs from
its id (`"pi_1"`), the response carries `client_secret = some "pi_1"`. -/
theorem C10_witness :
    (0 : ℚ) < examplePaymentRequest.amount ∧
    ((PaymentService.create_payment exampleIntentProvider []
        examplePaymentRequest false "p1" 0).2.1).stripe_payment_intent_id =
      some "pi_1" ∧
    (exampleIntentProvider ((PaymentService.create_payment
        exampleIntentProvider [] examplePaymentRequest false "p1"
        0).1)).client_secret = "pi_1_secret_abc" ∧
    some "pi_1" ≠ some "pi_1_secret_abc" := by
  refine ⟨by norm_num [examplePaymentRequest], ?_, rfl, by decide⟩
  have hc := (C10_theorem exampleIntentProvider [] examplePaymentRequest
    false "p1" 0 (by norm_num [examplePaymentRequest])).2
  rw [hc]
  rfl

/-! ### Claim C7 -/

/-- Claim C7 counterexample: a list request with `page = 0` and a creation
request with a negative amount are both answered with status 422 (the
framework default for request validation failures, which `app/main.py`
leaves in place), not 400 as the claim states. -/
theorem C7_counterexample :
    (PaymentsApi.list_payments [] none 0 10).statusCode = 422 ∧
    ((PaymentsApi.create_payment exampleIntentProvider []
        exampleNegAmountRequest false "p1" 0).1).statusCode = 422 ∧
    (422 : ℕ) ≠ 400 := by
  refine ⟨rfl, ?_, by decide⟩
  have hneg : ¬ (0 : ℚ) < exampleNegAmountRequest.amount := by
    norm_num [exampleNegAmountRequest]
  simp only [PaymentsApi.create_payment]
  rw [if_pos hneg]
  rfl

/-- Claim C7 as amended: a request whose body or query parameters fail the
declared validation constraints is answered with status 422 (FastAPI's
default for `RequestValidationError`, unchanged by `app/main.py`): shown
for the list query constraints (`page ≥ 1`, `1 ≤ per_page ≤ 100`) and the
creation body constraint (`amount > 0`). -/
theorem C7_theorem (store : PaymentStore) (customer_id : Option String)
    (page per_page : ℤ)
    (provider : PaymentIntentRequest → StripePaymentIntent)
    (request : PaymentCreateRequest) (test_mode : Bool)
    (payment_id : String) (now : ℤ)
    (hq : page < 1 ∨ per_page < 1 ∨ MAX_PAGE_SIZE < per_page)
    (hb : request.amount ≤ 0) :
    (PaymentsApi.list_payments store customer_id page per_page).statusCode
      = 422 ∧
    ((PaymentsApi.create_payment provider store request test_mode
        payment_id now).1).statusCode = 422 := by
  constructor
  · simp only [PaymentsApi.list_payments]
    rw [if_pos hq]
    rfl
  · simp only [PaymentsApi.create_payment]
    rw [if_pos (not_lt.mpr hb)]
    rfl

/-- Claim C7 witness: the theorem applied to the `page = 0` list query and
the negative-amount creation request. -/
theorem C7_witness :
    ((0 : ℤ) < 1 ∨ (10 : ℤ) < 1 ∨ MAX_PAGE_SIZE < 10) ∧
    exampleNegAmountRequest.amount ≤ 0 ∧
    (PaymentsApi.list_payments [] none 0 10).statusCode = 422 ∧
    ((PaymentsApi.create_payment exampleIntentProvider []
        exampleNegAmountRequest false "p1" 0).1).statusCode = 422 := by
  have hq : (0 : ℤ) < 1 ∨ (10 : ℤ) < 1 ∨ MAX_PAGE_SIZE < 10 :=
    Or.inl (by norm_num)
  have hb : exampleNegAmountRequest.amount ≤ 0 := by
    norm_num [exampleNegAmountRequest]
  obtain ⟨ha, hc⟩ := C7_theorem [] none 0 10 exampleIntentProvider
    exampleNegAmountRequest false "p1" 0 hq hb
  exact ⟨hq, hb, ha, hc⟩

/-! ### Claim C1 -/

/-- Claim C1 counterexample: for the valid creation request with amount
0.019, the amount passed to the provider is `int(Decimal * 100) = 1`
(truncation), while `round(0.019 × 100) = 2`. -/
theorem C1_counterexample :
    (0 : ℚ) < exampleSmallAmountRequest.amount ∧
    ((PaymentService.create_payment exampleIntentProvider []
        exampleSmallAmountRequest false "p1" 0).1).amount = 1 ∧
    round (exampleSmallAmountRequest.amount * 100) = 2 ∧
    (1 : ℤ) ≠ 2 := by
  refine ⟨by norm_num [exampleSmallAmountRequest], ?_, ?_, by decide⟩
  · simp [PaymentService.create_payment, StripeService.create_payment_intent,
      exampleSmallAmountRequest]
    norm_num [pyIntOfRat, Int.floor_eq_iff]
  · norm_num [exampleSmallAmountRequest, round_eq, Int.floor_eq_iff]

/-- Claim C1 as amended: on a successful creation with amount `A > 0`, the
returned record's amount equals `A`, and the amount passed to the provider
gateway is the truncation `⌊A×100⌋` toward zero — which agrees with
`round(A×100)` exactly when `A` has at most two decimal places, i.e. when
`A×100` is an integer. -/
theorem C1_theorem (provider : PaymentIntentRequest → StripePaymentIntent)
    (store : PaymentStore) (request : PaymentCreateRequest)
    (test_mode : Bool) (payment_id : String) (now : ℤ)
    (h : 0 < request.amount) :
    ((PaymentService.create_payment provider store request test_mode
        payment_id now).2.1).amount = request.amount ∧
    ((PaymentService.create_payment provider store request test_mode
        payment_id now).1).amount = ⌊request.amount * 100⌋ ∧
    (∀ n : ℤ, request.amount * 100 = (n : ℚ) →
      ((PaymentService.create_payment provider store request test_mode
          payment_id now).1).amount = n) := by
  have hq : (0 : ℚ) ≤ request.amount * 100 := mul_nonneg h.le (by norm_num)
  have hsent : ((PaymentService.create_payment provider store request
      test_mode payment_id now).1).amount = ⌊request.amount * 100⌋ := by
    cases test_mode <;>
      simp [PaymentService.create_payment,
        StripeService.create_payment_intent,
        StripeService.create_test_payment_intent, pyIntOfRat, hq]
  refine ⟨rfl, hsent, ?_⟩
  intro n hn
  rw [hsent, hn, Int.floor_intCast]

/-- Claim C1 witness: for the two-decimal amount 19.99 the provider
receives exactly 1999 minor units. -/
theorem C1_witness :
    (0 : ℚ) < examplePriceRequest.amount ∧
    examplePriceRequest.amount * 100 = ((1999 : ℤ) : ℚ) ∧
    ((PaymentService.create_payment exampleIntentProvider []
        examplePriceRequest false "p1" 0).1).amount = 1999 := by
  have h : (0 : ℚ) < examplePriceRequest.amount := by
    norm_num [examplePriceRequest]
  have hexact : examplePriceRequest.amount * 100 = ((1999 : ℤ) : ℚ) := by
    norm_num [examplePriceRequest]
  exact ⟨h, hexact,
    (C1_theorem exampleIntentProvider [] examplePriceRequest false "p1" 0
      h).2.2 1999 hexact⟩

/-! ### Claim C4 -/

/-- Claim C4 counterexample: with the customer filter present but equal to
the empty string, the listing returns records that do not match the
filter: over a store whose only record has customer id `"cus_1"`, the code
treats the empty-string filter as absent (Python truthiness) and returns
that record, while no stored record matches the filter. -/
theorem C4_counterexample :
    PaymentService.get_payments onePaymentStore (some "") 1 10 =
      [mkPayment "p1" (some "cus_1") 1] ∧
    (dictValues onePaymentStore).filter
      (fun p => p.customer_id == some "") = [] :=
  ⟨rfl, rfl⟩

/-- Claim C4 as amended: for every store, page ≥ 1, per_page ≥ 1 and
customer filter that is not the empty string (the code treats an
empty-string filter as absent), the listing equals the spec description:
the matching records stable-sorted by creation time descending, skipping
the first (page-1)×per_page of them and returning at most per_page; in
particular page 2 with per_page 2 over five stored records returns the
records at ordinal positions 3-4 of the sorted sequence. -/
theorem C4_theorem (store : PaymentStore) (customer_id : Option String)
    (page per_page : ℤ) (h1 : 1 ≤ page) (h2 : 1 ≤ per_page)
    (hc : truthyStr customer_id = customer_id) :
    PaymentService.get_payments store customer_id page per_page =
      listPaymentsSpec (dictValues store) customer_id page.toNat
        per_page.toNat := by
  simp only [PaymentService.get_payments, listPaymentsSpec, hc]
  exact paginate_eq _ page per_page h1 h2

/-- Claim C4 witness: the theorem applied to the five-record store with
page 2 and per_page 2 returns exactly the records at ordinal positions 3-4
(creation instants 30 and 20) of the descending-sorted sequence. -/
theorem C4_witness :
    ((1 : ℤ) ≤ 2 ∧ truthyStr none = none) ∧
    PaymentService.get_payments fivePaymentStore none 2 2 =
      [mkPayment "p5" none 30, mkPayment "p3" none 20] := by
  refine ⟨⟨by norm_num, rfl⟩, ?_⟩
  rw [C4_theorem fivePaymentStore none 2 2 (by norm_num) (by norm_num) rfl]
  rfl

end StripeB2B
